import Mathlib

/-
Verification of the blahaj-spinner image route (src/unnamed/part_000, the
Cloudflare KV variant, and src/src/app/route.ts, the plain variant).
The plain variant is the KV variant with the shared KV tier absent, so one
embedding with an explicit KV-tier input covers both files.

JavaScript conventions embedded explicitly:
  - optional fields become Option;
  - string truthiness: undefined and the empty string are falsy;
  - `a || b` on strings returns a when truthy, else b as-is.
-/

namespace BlahajSpinner

/-- Truthiness of an optional JS string: undefined and the empty string are falsy. -/
def truthy : Option String → Bool
  | none => false
  | some s => s ≠ ""

/-- JS `a || b` on optional strings: a when truthy, otherwise b unchanged. -/
def jsOrS (a b : Option String) : Option String :=
  if truthy a then a else b

/-- Prefix test on character lists, structural so the kernel evaluates it. -/
def isPrefixList : List Char → List Char → Bool
  | [], _ => true
  | _ :: _, [] => false
  | p :: ps, c :: cs => p = c && isPrefixList ps cs

/-- Substring occurrence test on character lists. -/
def containsSub (pat : List Char) : List Char → Bool
  | [] => isPrefixList pat []
  | c :: cs => isPrefixList pat (c :: cs) || containsSub pat cs

/-- True when pattern p occurs as a substring of s. -/
def containsStr (s p : String) : Bool :=
  containsSub p.data s.data

/-- True when s ends with p. -/
def endsWithStr (s p : String) : Bool :=
  isPrefixList p.data.reverse s.data.reverse

/-- ASCII lowercasing of a string, character by character. -/
def lowerStr (s : String) : String :=
  String.mk (s.data.map Char.toLower)

/-- Regex fragment test: does s contain "." ++ e followed by a question mark or
the end of the string, for some e in exts, case-insensitively.  This embeds the
source tests of the shape new RegExp of a dot, an alternation of extensions and
then a question mark or end anchor, with the i flag. -/
def extTest (exts : List String) (s : String) : Bool :=
  let t := lowerStr s
  exts.any (fun e => endsWithStr t ("." ++ e) || containsStr t ("." ++ e ++ "?"))

/-- The image-extension regex of the candidate filter, line 113 of part_000:
dot, then jpg or jpeg or png or gif or webp, then question mark or end, case-insensitive. -/
def isImageUrl (s : String) : Bool :=
  extTest ["jpg", "jpeg", "png", "gif", "webp"] s

/-- guessContentTypeFromUrl from the source: four successive regex tests. -/
def guessContentTypeFromUrl (url : String) : Option String :=
  if extTest ["jpg", "jpeg"] url then some "image/jpeg"
  else if extTest ["png"] url then some "image/png"
  else if extTest ["gif"] url then some "image/gif"
  else if extTest ["webp"] url then some "image/webp"
  else none

/-- preview?: { images?: Array<{ source?: { url?: string } }> } -/
structure PreviewSource where
  url : Option String
deriving Repr, DecidableEq

structure PreviewImage where
  source : Option PreviewSource
deriving Repr, DecidableEq

structure Preview where
  images : Option (List PreviewImage)
deriving Repr, DecidableEq

/-- RedditPost: the narrow post type of the source. -/
structure RedditPost where
  url : Option String
  url_overridden_by_dest : Option String
  post_hint : Option String
  preview : Option Preview
  score : Option Int
deriving Repr, DecidableEq

/-- RedditChild: { data: RedditPost }. -/
structure RedditChild where
  data : RedditPost
deriving Repr, DecidableEq

structure ListingData where
  children : Option (List RedditChild)
deriving Repr, DecidableEq

/-- RedditListing: { data?: { children?: RedditChild[] } }. -/
structure RedditListing where
  data : Option ListingData
deriving Repr, DecidableEq

/-- The optional-chain d.preview?.images?.[0]?.source?.url. -/
def previewSourceUrl (d : RedditPost) : Option String :=
  match d.preview with
  | none => none
  | some pv =>
    match pv.images with
    | none => none
    | some imgs =>
      match imgs.head? with
      | none => none
      | some img =>
        match img.source with
        | none => none
        | some src => src.url

/-- The candidate-filter predicate, lines 110 to 117 of part_000:
resolve url as override or primary, reject when falsy, then keep on
extension match, or post_hint equal to the string image, or a truthy
nested preview source url. -/
def keepPost (d : RedditPost) : Bool :=
  let url := jsOrS d.url_overridden_by_dest d.url
  if ¬ truthy url then false
  else if isImageUrl (url.getD "") then true
  else if d.post_hint = some "image" then true
  else if truthy (previewSourceUrl d) then true
  else false

/-- The score filter, line 120: typeof score is number and score at least the threshold. -/
def meetsScore (minUp : Int) (d : RedditPost) : Bool :=
  match d.score with
  | some n => minUp ≤ n
  | none => false

/-- posts.map(p => p.data).filter(keepPost) over the listing document. -/
def candidatesOf (posts : List RedditChild) : List RedditPost :=
  (posts.map RedditChild.data).filter keepPost

/-- byScore, line 120 of part_000. -/
def byScoreOf (posts : List RedditChild) (minUp : Int) : List RedditPost :=
  (candidatesOf posts).filter (meetsScore minUp)

/-- selectedPool, line 122: byScore when nonempty, else all candidates. -/
def selectedPoolOf (posts : List RedditChild) (minUp : Int) : List RedditPost :=
  if (byScoreOf posts minUp).length > 0 then byScoreOf posts minUp else candidatesOf posts

/-- URL resolution of a surviving post, line 126 of part_000:
override or primary or nested preview source url, in JS or-chains. -/
def resolveRaw (d : RedditPost) : Option String :=
  jsOrS d.url_overridden_by_dest (jsOrS d.url (previewSourceUrl d))

/-- One pass of the JS global replace of the literal pattern amp-entity by an
ampersand: scan left to right, on a match emit the ampersand and skip the five
matched characters, else keep the character.  Fuel is the list length, enough
for the whole scan, and keeps the recursion structural. -/
def replaceAmpAux : Nat → List Char → List Char
  | 0, cs => cs
  | _, [] => []
  | fuel + 1, c :: rest =>
    if (c :: rest).take 5 = ['&', 'a', 'm', 'p', ';'] then
      '&' :: replaceAmpAux fuel ((c :: rest).drop 5)
    else
      c :: replaceAmpAux fuel rest

/-- url.replace of the global amp-entity pattern by an ampersand. -/
def jsReplaceAmp (s : String) : String :=
  String.mk (replaceAmpAux s.data.length s.data)

/-- Lines 126 to 127: resolve, then when a string replace every literal
amp-entity sequence by an ampersand, else the empty string. -/
def resolveUrl (d : RedditPost) : String :=
  match resolveRaw d with
  | some s => jsReplaceAmp s
  | none => ""

/-- imageUrls, lines 124 to 129: resolve each pool member and drop falsy
results (filter Boolean drops the empty string). -/
def imageUrlsOf (posts : List RedditChild) (minUp : Int) : List String :=
  ((selectedPoolOf posts minUp).map resolveUrl).filter (fun s => s ≠ "")

/-- Array.isArray(json?.data?.children) ? json.data.children : [], line 104. -/
def postsOf (json : RedditListing) : List RedditChild :=
  match json.data with
  | none => []
  | some d =>
    match d.children with
    | none => []
    | some cs => cs

def DEFAULT_MIN_UPVOTES : Int := 50

/-- getMinUpvotes, lines 46 to 55 of part_000.  The environment read is an
input: none models a thrown access (caught, default), some none an absent
variable, some (some v) a present value; the empty string is falsy so the
early return fires for it too.  The host Number coercion is a parameter num
giving some rational exactly when the coerced value is a finite number
(Number.isFinite rejects NaN and the infinities); Math.floor is Rat.floor. -/
def getMinUpvotes (env : Option (Option String)) (num : String → Option Rat) : Int :=
  match env with
  | none => DEFAULT_MIN_UPVOTES
  | some none => DEFAULT_MIN_UPVOTES
  | some (some v) =>
    if v = "" then DEFAULT_MIN_UPVOTES
    else
      match num v with
      | none => DEFAULT_MIN_UPVOTES
      | some n => if 0 ≤ n then n.floor else DEFAULT_MIN_UPVOTES

/-- Outcome of one fetch-variant attempt in the listing fetcher: a network
fault with its message, or an HTTP response with a status and, when the body
is parseable JSON, the parsed listing. -/
inductive VariantResult where
  | netError (msg : String)
  | response (status : Nat) (json : Option RedditListing)
deriving Repr, DecidableEq

/-- res.ok of the fetch API: status in the range 200 to 299. -/
def statusOk (s : Nat) : Bool :=
  200 ≤ s && s ≤ 299

/-- The recorded error message for a non-success status, line 90 of part_000. -/
def statusErrMsg (s : Nat) : String :=
  "Failed to fetch subreddit listing: " ++ toString s

/-- The parse-failure message standing for a thrown res.json() rejection. -/
def parseErrMsg : String := "Unexpected token in JSON"

def genericListingErr : String := "Failed to fetch subreddit listing"

/-- The variant loop of fetchRedditImageUrl, lines 85 to 100 of part_000,
with lastErr threaded as an accumulator.  A non-ok status records the status
error and moves on (the 403 branch continues directly; every other status
throws the same recorded error into the catch, which records it again and
moves on, so both behave alike); a network fault or a JSON parse failure
records its message and moves on; an ok status with parseable JSON succeeds.
After the loop, null json raises lastErr or the generic message, line 102. -/
def fetchListingLoop : List VariantResult → Option String → Except String RedditListing
  | [], lastErr => .error (lastErr.getD genericListingErr)
  | v :: rest, _lastErr =>
    match v with
    | .netError m => fetchListingLoop rest (some m)
    | .response s j =>
      if statusOk s then
        match j with
        | some listing => .ok listing
        | none => fetchListingLoop rest (some parseErrMsg)
      else
        fetchListingLoop rest (some (statusErrMsg s))

def fetchListing (vs : List VariantResult) : Except String RedditListing :=
  fetchListingLoop vs none

def noImagePostsErr : String := "No image posts found in subreddit"

/-- Lines 104 to 135 of part_000: candidate selection after the listing is in
hand.  pick models Math.random times length floored; the source index is
always below the length, which the modulus makes explicit. -/
def selectImageUrl (json : RedditListing) (minUp : Int) (pick : Nat) : Except String String :=
  let urls := imageUrlsOf (postsOf json) minUp
  if urls.length = 0 then .error noImagePostsErr
  else .ok (urls.getD (pick % urls.length) "")

/-- fetchRedditImageUrl end to end: variant loop, then filter and pick. -/
def fetchRedditImageUrl (vs : List VariantResult) (env : Option (Option String))
    (num : String → Option Rat) (pick : Nat) : Except String String :=
  match fetchListing vs with
  | .error e => .error e
  | .ok json => selectImageUrl json (getMinUpvotes env num) pick

/-- The listing a variant attempt delivers when it fully succeeds: an ok
status (2xx) with parseable JSON; none in every failing case. -/
def variantOk : VariantResult → Option RedditListing
  | .netError _ => none
  | .response s j => if statusOk s then j else none

/-- The error message a variant attempt records into lastErr, if any. -/
def recordedError : VariantResult → Option String
  | .netError m => some m
  | .response s j =>
    if statusOk s then
      match j with
      | some _ => none
      | none => some parseErrMsg
    else some (statusErrMsg s)

/-- lastErr after scanning a list of variant outcomes, starting from acc. -/
def lastRecordedFrom : List VariantResult → Option String → Option String
  | [], acc => acc
  | v :: rest, acc =>
    lastRecordedFrom rest
      (match recordedError v with
       | some m => some m
       | none => acc)

def CACHE_TTL_MS : Int := 10 * 60 * 1000

/-- CachedImage: fetchedAt timestamp, raw bytes, content type. -/
structure CachedImage where
  fetchedAt : Int
  data : List Nat
  contentType : String
deriving Repr, DecidableEq

/-- The metadata blob stored beside the KV image, as consumed by the handler. -/
structure KVMeta where
  contentType : String
deriving Repr, DecidableEq

/-- Outcome of the shared KV tier read at the top of GET:
absent when the binding is undefined, readError when the get call rejects
(caught, falls through), miss when either key comes back falsy, and hit with
the buffer and the JSON.parse outcome of the metadata string (a parse failure
throws inside the try and also falls through). -/
inductive KVTier where
  | absent
  | readError
  | miss
  | hit (buf : List Nat) (meta : Option KVMeta)
deriving Repr, DecidableEq

/-- Outcome of the image GET: a network fault, or a response with status,
optional Content-Type header value and body bytes. -/
inductive ImgFetch where
  | netError (msg : String)
  | response (status : Nat) (headerCT : Option String) (body : List Nat)
deriving Repr, DecidableEq

/-- Response body: image bytes or a plain text string (the platform serves a
string body as plain text). -/
inductive BodyVal where
  | bytes (bs : List Nat)
  | text (s : String)
deriving Repr, DecidableEq

/-- The response surface the handler builds: status plus the headers it sets
explicitly (absent option means the header is not set). -/
structure Response where
  status : Nat
  body : BodyVal
  contentType : Option String
  cacheControl : Option String
  xCacheSource : Option String
  xCacheStatus : Option String
deriving Repr, DecidableEq

def stdCacheControl : String := "public, s-maxage=600, stale-while-revalidate=60"

/-- Which upstream calls a run of GET performed: any listing-variant fetch,
and the image fetch. -/
structure Trace where
  listingFetched : Bool
  imageFetched : Bool
deriving Repr, DecidableEq

/-- All the inputs one run of GET depends on: the KV read outcome, the entry
clock value, the local cache slot, the listing variant outcomes, the
environment read and host numeric coercion for the threshold, the random pick,
the image fetch outcome, and the clock value taken when storing the cache. -/
structure World where
  kv : KVTier
  now : Int
  cached : Option CachedImage
  variants : List VariantResult
  env : Option (Option String)
  num : String → Option Rat
  pick : Nat
  imgFetch : ImgFetch
  now2 : Int

/-- Result of one run of GET: the response, which upstream calls happened,
and the local cache slot afterwards. -/
structure GETResult where
  resp : Response
  trace : Trace
  cachedAfter : Option CachedImage
deriving Repr

/-- Content type resolution for a fetched image, line 184 of part_000:
response header value, else guess by extension, else the generic binary type,
with JS or-chains (an empty header string falls through). -/
def resolveContentType (headerCT : Option String) (url : String) : String :=
  (jsOrS headerCT (jsOrS (guessContentTypeFromUrl url) (some "application/octet-stream"))).getD ""

/-- The catch branch of GET, lines 213 to 222 of part_000: with a cache slot
present serve its bytes and content type with the stale marker and no
Cache-Control header, else status 502 with a plain text body. -/
def fallbackResult (w : World) (imgAttempted : Bool) : GETResult :=
  match w.cached with
  | some c =>
    ⟨⟨200, .bytes c.data, some c.contentType, none, none, some "stale"⟩,
     ⟨true, imgAttempted⟩, w.cached⟩
  | none =>
    ⟨⟨502, .text "Could not fetch image", none, none, none, none⟩,
     ⟨true, imgAttempted⟩, none⟩

/-- The try block of GET, lines 178 to 212 of part_000: the listing pipeline,
then the image fetch, the cache write and the fresh 200 response; any failure
goes to the catch branch. -/
def liveFetchResult (w : World) : GETResult :=
  match fetchRedditImageUrl w.variants w.env w.num w.pick with
  | .error _ => fallbackResult w false
  | .ok url =>
    match w.imgFetch with
    | .netError _ => fallbackResult w true
    | .response s headerCT body =>
      if statusOk s then
        let ct := resolveContentType headerCT url
        ⟨⟨200, .bytes body, some ct, some stdCacheControl, none, none⟩,
         ⟨true, true⟩, some ⟨w.now2, body, ct⟩⟩
      else
        fallbackResult w true

/-- GET, lines 138 to 224 of part_000: KV tier first (a hit with parseable
metadata responds at once with the KV source marker), then the fresh local
cache check, then the live fetch with its fallback.  The plain variant
src/src/app/route.ts is this function at kv = absent. -/
def GETrun (w : World) : GETResult :=
  match w.kv with
  | .hit buf (some meta) =>
    ⟨⟨200, .bytes buf, some meta.contentType, some stdCacheControl, some "kv", none⟩,
     ⟨false, false⟩, w.cached⟩
  | _ =>
    match w.cached with
    | some c =>
      if w.now - c.fetchedAt < CACHE_TTL_MS then
        ⟨⟨200, .bytes c.data, some c.contentType, some stdCacheControl, none, none⟩,
         ⟨false, false⟩, w.cached⟩
      else
        liveFetchResult w
    | none => liveFetchResult w

/-- True when the KV tier produced a served hit. -/
def kvHit (w : World) : Bool :=
  match w.kv with
  | .hit _ (some _) => true
  | _ => false

/-- True when the local slot holds a fresh image at entry time. -/
def freshLocal (w : World) : Bool :=
  match w.cached with
  | some c => w.now - c.fetchedAt < CACHE_TTL_MS
  | none => false

/-- True when the live-fetch path, were it run, would fail: the listing
pipeline errors, or the image fetch faults or returns a non-success status. -/
def liveFails (w : World) : Bool :=
  match fetchRedditImageUrl w.variants w.env w.num w.pick with
  | .error _ => true
  | .ok _ =>
    match w.imgFetch with
    | .netError _ => true
    | .response s _ _ => !(statusOk s)

/-
Concrete inputs used by counterexamples and witnesses.
-/

/-- A post whose only URL is the nested preview-image URL. -/
def previewOnlyPost : RedditPost :=
  { url := none
    url_overridden_by_dest := none
    post_hint := none
    preview := some ⟨some [⟨some ⟨some "https://preview.example/a.png"⟩⟩]⟩
    score := some 100 }

/-- An image-typed post with the given primary URL and score. -/
def mkPost (u : String) (sc : Int) : RedditPost :=
  { url := some u
    url_overridden_by_dest := none
    post_hint := some "image"
    preview := none
    score := some sc }

def wPosts : List RedditChild :=
  [⟨mkPost "https://a.example/a.png" 10⟩,
   ⟨mkPost "https://b.example/b.png" 60⟩,
   ⟨mkPost "https://c.example/c.png" 200⟩]

/-- A post carrying both an override URL (with an amp entity) and a primary URL. -/
def overridePost : RedditPost :=
  { url := some "https://u.example/u.png"
    url_overridden_by_dest := some "https://o.example/o.png?a=1&amp;b=2"
    post_hint := none
    preview := none
    score := some 3 }

/-- A post whose override field is present but the empty string. -/
def emptyOverridePost : RedditPost :=
  { url := some "https://i.example/b.jpg"
    url_overridden_by_dest := some ""
    post_hint := none
    preview := none
    score := none }

/-- A host numeric coercion used by witnesses: finite values for two inputs,
not a finite number for everything else. -/
def numEx : String → Option Rat :=
  fun s => if s = "60" then some 60 else if s = "-3" then some (-3) else none

def listingEx : RedditListing := ⟨some ⟨some wPosts⟩⟩

def vsOkEx : List VariantResult :=
  [.response 403 none, .netError "connect reset",
   .response 200 (some listingEx), .response 500 none]

def vsFailEx : List VariantResult :=
  [.response 403 none, .netError "connect reset", .response 500 none]

/-- An empty listing document: no data field at all. -/
def emptyListing : RedditListing := ⟨none⟩

/-- A world where the shared KV tier hits with one image while the local
slot holds a different, fresh image. -/
def kvHitWorld : World :=
  { kv := .hit [9] (some ⟨"image/png"⟩)
    now := 0
    cached := some ⟨0, [1, 2, 3], "image/jpeg"⟩
    variants := []
    env := none
    num := fun _ => none
    pick := 0
    imgFetch := .netError "offline"
    now2 := 0 }

/-- A world with no KV binding and a fresh local cache. -/
def freshWorld : World :=
  { kv := .absent
    now := 1000
    cached := some ⟨0, [1, 2, 3], "image/jpeg"⟩
    variants := []
    env := none
    num := fun _ => none
    pick := 0
    imgFetch := .netError "offline"
    now2 := 0 }

/-- A world with no KV binding, a stale local cache and a failing live path. -/
def staleWorld : World :=
  { kv := .absent
    now := 600000
    cached := some ⟨0, [7, 7], "image/gif"⟩
    variants := []
    env := none
    num := fun _ => none
    pick := 0
    imgFetch := .netError "offline"
    now2 := 600001 }

/-- A world with a KV miss, no local cache and a failing live path. -/
def noCacheWorld : World :=
  { kv := .miss
    now := 0
    cached := none
    variants := [.response 403 none]
    env := none
    num := fun _ => none
    pick := 0
    imgFetch := .netError "offline"
    now2 := 0 }

/-
Helper lemmas.
-/

theorem jsOrS_pos (a b : Option String) (h : truthy a = true) : jsOrS a b = a := by
  simp [jsOrS, h]

theorem jsOrS_neg (a b : Option String) (h : truthy a = false) : jsOrS a b = b := by
  simp [jsOrS, h]

/-
Theorems for the claims.
-/

/-- C1, counterexample: a post that carries a nested preview-image URL but
whose override and primary URL fields are both absent is dropped by the
filter, although the claim says such a post is kept. -/
theorem keepPost_preview_only_dropped :
    truthy (previewSourceUrl previewOnlyPost) = true ∧
    keepPost previewOnlyPost = false := by decide

/-- C1, amended: a post is kept if and only if its resolved URL (override
preferred over primary, JS truthiness) is a present nonempty string AND
(the resolved URL matches a known image extension, or the type hint equals
image, or a truthy nested preview-image URL is present).  A post whose only
URL is the nested preview-image URL is dropped. -/
theorem keepPost_characterization (d : RedditPost) :
    keepPost d = true ↔
      (truthy (jsOrS d.url_overridden_by_dest d.url) = true ∧
        (isImageUrl ((jsOrS d.url_overridden_by_dest d.url).getD "") = true ∨
         d.post_hint = some "image" ∨
         truthy (previewSourceUrl d) = true)) := by
  unfold keepPost
  split_ifs <;> simp_all

/-- C2: if some kept post has a numeric score meeting the threshold, the
selected pool is exactly the kept posts whose numeric score meets the
threshold; otherwise it is the full kept set. -/
theorem selectedPool_threshold (posts : List RedditChild) (minUp : Int) :
    ((∃ d, d ∈ candidatesOf posts ∧ meetsScore minUp d = true) →
      selectedPoolOf posts minUp = (candidatesOf posts).filter (meetsScore minUp)) ∧
    ((∀ d, d ∈ candidatesOf posts → meetsScore minUp d = false) →
      selectedPoolOf posts minUp = candidatesOf posts) := by
  constructor
  · rintro ⟨d, hd, hs⟩
    have hm : d ∈ byScoreOf posts minUp := List.mem_filter.mpr ⟨hd, hs⟩
    unfold selectedPoolOf
    rw [if_pos]
    · rfl
    · exact List.length_pos.mpr (List.ne_nil_of_mem hm)
  · intro h
    have hnil : byScoreOf posts minUp = [] := by
      unfold byScoreOf
      exact List.filter_eq_nil_iff.mpr (fun d hd => by simp [h d hd])
    unfold selectedPoolOf
    rw [hnil]
    simp

/-- C2, witness: with threshold 50 and image posts scoring 10, 60, 200, the
pool is exactly the two posts meeting the threshold. -/
theorem selectedPool_threshold_witness :
    selectedPoolOf wPosts 50 = (candidatesOf wPosts).filter (meetsScore 50) ∧
    (candidatesOf wPosts).filter (meetsScore 50) =
      [mkPost "https://b.example/b.png" 60, mkPost "https://c.example/c.png" 200] :=
  ⟨(selectedPool_threshold wPosts 50).1
      ⟨mkPost "https://b.example/b.png" 60, by decide, by decide⟩,
   by decide⟩

/-- C7, counterexample: the override field is present (as the empty string),
yet resolution returns the primary field, because the JS or-chain skips a
falsy override; the claim as stated would return the override. -/
theorem resolveUrl_empty_override :
    emptyOverridePost.url_overridden_by_dest = some "" ∧
    resolveUrl emptyOverridePost = "https://i.example/b.jpg" ∧
    resolveUrl emptyOverridePost ≠ "" := by decide

/-- C7, amended: resolution returns the override field when present and
nonempty, else the primary field when present and nonempty, else the nested
preview URL (as-is, possibly empty), and applies the global amp-entity
replacement to the resolved string. -/
theorem resolveUrl_resolution (d : RedditPost) :
    (truthy d.url_overridden_by_dest = true →
      resolveUrl d = jsReplaceAmp (d.url_overridden_by_dest.getD "")) ∧
    (truthy d.url_overridden_by_dest = false → truthy d.url = true →
      resolveUrl d = jsReplaceAmp (d.url.getD "")) ∧
    (truthy d.url_overridden_by_dest = false → truthy d.url = false →
      resolveUrl d = (match previewSourceUrl d with
        | some s => jsReplaceAmp s
        | none => "")) := by
  refine ⟨?_, ?_, ?_⟩
  · intro h
    have h1 : resolveRaw d = d.url_overridden_by_dest := jsOrS_pos _ _ h
    unfold resolveUrl
    rw [h1]
    cases ho : d.url_overridden_by_dest with
    | none => rw [ho] at h; simp [truthy] at h
    | some s => rfl
  · intro ho hu
    have h1 : resolveRaw d = jsOrS d.url (previewSourceUrl d) := jsOrS_neg _ _ ho
    have h2 : jsOrS d.url (previewSourceUrl d) = d.url := jsOrS_pos _ _ hu
    unfold resolveUrl
    rw [h1, h2]
    cases hus : d.url with
    | none => rw [hus] at hu; simp [truthy] at hu
    | some s => rfl
  · intro ho hu
    unfold resolveUrl resolveRaw
    rw [jsOrS_neg _ _ ho, jsOrS_neg _ _ hu]

/-- C7, witness: a concrete post where the override wins, with the amp
entity decoded. -/
theorem resolveUrl_resolution_witness :
    resolveUrl overridePost = jsReplaceAmp (overridePost.url_overridden_by_dest.getD "") ∧
    resolveUrl overridePost = "https://o.example/o.png?a=1&b=2" :=
  ⟨(resolveUrl_resolution overridePost).1 (by decide), by decide⟩

/-- C8: the threshold defaults to 50 when the environment read throws, the
variable is absent or empty, the coerced value is not a finite number, or it
is negative; a finite non-negative value yields its floor. -/
theorem getMinUpvotes_rules (num : String → Option Rat) :
    DEFAULT_MIN_UPVOTES = 50 ∧
    getMinUpvotes none num = DEFAULT_MIN_UPVOTES ∧
    getMinUpvotes (some none) num = DEFAULT_MIN_UPVOTES ∧
    getMinUpvotes (some (some "")) num = DEFAULT_MIN_UPVOTES ∧
    (∀ v, v ≠ "" → num v = none →
      getMinUpvotes (some (some v)) num = DEFAULT_MIN_UPVOTES) ∧
    (∀ v n, v ≠ "" → num v = some n → n < 0 →
      getMinUpvotes (some (some v)) num = DEFAULT_MIN_UPVOTES) ∧
    (∀ v n, v ≠ "" → num v = some n → 0 ≤ n →
      getMinUpvotes (some (some v)) num = n.floor) := by
  refine ⟨rfl, rfl, rfl, rfl, ?_, ?_, ?_⟩
  · intro v hv hn
    simp [getMinUpvotes, hv, hn]
  · intro v n hv hn hneg
    simp [getMinUpvotes, hv, hn, not_le.mpr hneg]
  · intro v n hv hn hpos
    simp [getMinUpvotes, hv, hn, hpos]

/-- C8, witness: a finite value 60 yields 60, a negative value falls back to
the default 50. -/
theorem getMinUpvotes_rules_witness :
    getMinUpvotes (some (some "60")) numEx = 60 ∧
    getMinUpvotes (some (some "-3")) numEx = 50 := by
  constructor
  · have h := (getMinUpvotes_rules numEx).2.2.2.2.2.2 "60" 60 (by decide) rfl (by norm_num)
    rw [h]
    decide
  · have h := (getMinUpvotes_rules numEx).2.2.2.2.2.1 "-3" (-3) (by decide) rfl (by norm_num)
    rw [h]
    decide

theorem fetchListingLoop_all_fail (vs : List VariantResult)
    (h : ∀ v ∈ vs, variantOk v = none) (acc : Option String) :
    fetchListingLoop vs acc =
      .error ((lastRecordedFrom vs acc).getD genericListingErr) := by
  induction vs generalizing acc with
  | nil => rfl
  | cons v rest ih =>
    have hv : variantOk v = none := h v (List.mem_cons_self v rest)
    have hrest : ∀ u ∈ rest, variantOk u = none :=
      fun u hu => h u (List.mem_cons_of_mem v hu)
    cases v with
    | netError m =>
      simpa [fetchListingLoop, lastRecordedFrom, recordedError] using ih hrest (some m)
    | response s j =>
      by_cases hs : statusOk s = true
      · cases j with
        | some listing => simp [variantOk, hs] at hv
        | none =>
          simpa [fetchListingLoop, hs, lastRecordedFrom, recordedError]
            using ih hrest (some parseErrMsg)
      · have hs' : statusOk s = false := by simpa using hs
        simpa [fetchListingLoop, hs', lastRecordedFrom, recordedError]
          using ih hrest (some (statusErrMsg s))

theorem fetchListingLoop_first_success (pre post : List VariantResult)
    (v : VariantResult) (j : RedditListing)
    (hpre : ∀ u ∈ pre, variantOk u = none) (hv : variantOk v = some j)
    (acc : Option String) :
    fetchListingLoop (pre ++ v :: post) acc = .ok j := by
  induction pre generalizing acc with
  | nil =>
    cases v with
    | netError m => simp [variantOk] at hv
    | response s jr =>
      by_cases hs : statusOk s = true
      · cases jr with
        | some listing =>
          simp [variantOk, hs] at hv
          simp [fetchListingLoop, hs, hv]
        | none => simp [variantOk, hs] at hv
      · have hs' : statusOk s = false := by simpa using hs
        simp [variantOk, hs'] at hv
  | cons u rest ih =>
    have hu : variantOk u = none := hpre u (List.mem_cons_self u rest)
    have hrest : ∀ x ∈ rest, variantOk x = none :=
      fun x hx => hpre x (List.mem_cons_of_mem u hx)
    cases u with
    | netError m => simpa [fetchListingLoop] using ih hrest (some m)
    | response s jr =>
      by_cases hs : statusOk s = true
      · cases jr with
        | some listing => simp [variantOk, hs] at hu
        | none => simpa [fetchListingLoop, hs] using ih hrest (some parseErrMsg)
      · have hs' : statusOk s = false := by simpa using hs
        simpa [fetchListingLoop, hs'] using ih hrest (some (statusErrMsg s))

/-- C5: the listing fetcher succeeds with the parsed listing of the first
variant that yields an ok status with parseable JSON, every earlier variant
having failed; and when every variant fails (non-success status, network
fault, or unparseable body) it fails with the last recorded error, falling
back to the generic message when nothing was recorded. -/
theorem fetchListing_variant_policy (vs : List VariantResult) :
    ((∀ pre v post j, vs = pre ++ v :: post →
        (∀ u ∈ pre, variantOk u = none) → variantOk v = some j →
        fetchListing vs = .ok j)) ∧
    ((∀ v ∈ vs, variantOk v = none) →
      fetchListing vs = .error ((lastRecordedFrom vs none).getD genericListingErr)) := by
  constructor
  · intro pre v post j hvs hpre hv
    rw [hvs]
    exact fetchListingLoop_first_success pre post v j hpre hv none
  · intro h
    exact fetchListingLoop_all_fail vs h none

/-- C5, witness: with a 403, then a network fault, then a 200 with parseable
JSON, the fetcher returns that listing; with a 403, a network fault and a 500
it fails with the recorded 500 message. -/
theorem fetchListing_variant_policy_witness :
    fetchListing vsOkEx = .ok listingEx ∧
    fetchListing vsFailEx = .error (statusErrMsg 500) := by
  constructor
  · exact (fetchListing_variant_policy vsOkEx).1
      [.response 403 none, .netError "connect reset"]
      (.response 200 (some listingEx)) [.response 500 none] listingEx
      rfl (by decide) (by decide)
  · have h := (fetchListing_variant_policy vsFailEx).2 (by decide)
    rw [h]
    congr 1

/-- C6: a listing whose filtering pass yields zero candidate URL strings
makes the pipeline fail with the empty-candidate-set error instead of
returning an empty success, and the failure propagates through the full
fetchRedditImageUrl pipeline (whence the handler takes its fallback path). -/
theorem emptyCandidates_error (json : RedditListing) (minUp : Int) (pick : Nat)
    (h : imageUrlsOf (postsOf json) minUp = []) :
    selectImageUrl json minUp pick = .error noImagePostsErr ∧
    (∀ s, selectImageUrl json minUp pick ≠ .ok s) ∧
    (∀ vs env num, fetchListing vs = .ok json → getMinUpvotes env num = minUp →
      fetchRedditImageUrl vs env num pick = .error noImagePostsErr) := by
  have h1 : selectImageUrl json minUp pick = .error noImagePostsErr := by
    unfold selectImageUrl
    rw [h]
    rfl
  refine ⟨h1, ?_, ?_⟩
  · intro s hs
    rw [h1] at hs
    exact Except.noConfusion hs
  · intro vs env num hv hm
    unfold fetchRedditImageUrl
    rw [hv, hm]
    exact h1

/-- C6, witness: the empty listing yields zero candidates and the pipeline
errors, end to end through a successful variant fetch. -/
theorem emptyCandidates_error_witness :
    selectImageUrl emptyListing 50 0 = .error noImagePostsErr ∧
    fetchRedditImageUrl [.response 200 (some emptyListing)] (some none)
      (fun _ => none) 0 = .error noImagePostsErr := by
  constructor
  · exact (emptyCandidates_error emptyListing 50 0 (by decide)).1
  · exact (emptyCandidates_error emptyListing 50 0 (by decide)).2.2
      [.response 200 (some emptyListing)] (some none) (fun _ => none) rfl rfl

theorem liveFetchResult_fail (w : World) (hfail : liveFails w = true) :
    ∃ b, liveFetchResult w = fallbackResult w b := by
  unfold liveFails at hfail
  unfold liveFetchResult
  cases hfr : fetchRedditImageUrl w.variants w.env w.num w.pick with
  | error e => exact ⟨false, rfl⟩
  | ok url =>
    rw [hfr] at hfail
    cases hi : w.imgFetch with
    | netError m => exact ⟨true, rfl⟩
    | response s ct body =>
      rw [hi] at hfail
      have hs : statusOk s = false := by simpa using hfail
      exact ⟨true, by simp [hs]⟩

/-- C3, counterexample: with the shared KV tier holding a different image, a
request arriving while the local CachedImage is fresh is answered with the KV
bytes, not the local cached bytes, so the claim fails on the KV variant. -/
theorem GET_kv_overrides_fresh_local :
    kvHitWorld.cached = some ⟨0, [1, 2, 3], "image/jpeg"⟩ ∧
    kvHitWorld.now - 0 < CACHE_TTL_MS ∧
    (GETrun kvHitWorld).resp.body = .bytes [9] ∧
    (GETrun kvHitWorld).resp.body ≠ .bytes [1, 2, 3] :=
  ⟨rfl, by decide, rfl, by decide⟩

/-- C3, amended: for every request with a fresh local CachedImage, provided
the shared KV tier does not serve a hit (unconfigured, read error, miss, or
metadata parse failure), GET responds 200 with the cached bytes, the cached
content type and the standard Cache-Control header, and performs neither a
listing fetch nor an image fetch. -/
theorem GET_fresh_local_cache (w : World) (c : CachedImage)
    (hkv : kvHit w = false) (hc : w.cached = some c)
    (hfresh : w.now - c.fetchedAt < CACHE_TTL_MS) :
    (GETrun w).resp =
      ⟨200, .bytes c.data, some c.contentType, some stdCacheControl, none, none⟩ ∧
    (GETrun w).trace = ⟨false, false⟩ := by
  unfold kvHit at hkv
  cases hk : w.kv with
  | hit buf m =>
    cases m with
    | some meta => rw [hk] at hkv; simp at hkv
    | none => simp [GETrun, hk, hc, hfresh]
  | absent => simp [GETrun, hk, hc, hfresh]
  | readError => simp [GETrun, hk, hc, hfresh]
  | miss => simp [GETrun, hk, hc, hfresh]

/-- C3, witness for the amended theorem: a concrete fresh-cache request with
the KV binding absent. -/
theorem GET_fresh_local_cache_witness :
    (GETrun freshWorld).resp =
      ⟨200, .bytes [1, 2, 3], some "image/jpeg", some stdCacheControl, none, none⟩ ∧
    (GETrun freshWorld).trace = ⟨false, false⟩ :=
  GET_fresh_local_cache freshWorld ⟨0, [1, 2, 3], "image/jpeg"⟩ rfl rfl (by decide)

/-- C4: when the KV tier does not hit, the local cache is not fresh, and the
live-fetch path fails at any stage, GET serves the cached bytes and content
type with the stale marker header and without a Cache-Control header. -/
theorem GET_stale_fallback (w : World) (c : CachedImage)
    (hkv : kvHit w = false) (hc : w.cached = some c)
    (hstale : ¬(w.now - c.fetchedAt < CACHE_TTL_MS))
    (hfail : liveFails w = true) :
    (GETrun w).resp =
      ⟨200, .bytes c.data, some c.contentType, none, none, some "stale"⟩ := by
  obtain ⟨b, hb⟩ := liveFetchResult_fail w hfail
  unfold kvHit at hkv
  cases hk : w.kv with
  | hit buf m =>
    cases m with
    | some meta => rw [hk] at hkv; simp at hkv
    | none => simp [GETrun, hk, hc, hstale, hb, fallbackResult]
  | absent => simp [GETrun, hk, hc, hstale, hb, fallbackResult]
  | readError => simp [GETrun, hk, hc, hstale, hb, fallbackResult]
  | miss => simp [GETrun, hk, hc, hstale, hb, fallbackResult]

/-- C4, witness: a concrete stale-cache request where every listing variant
fails, served from the stale slot. -/
theorem GET_stale_fallback_witness :
    (GETrun staleWorld).resp =
      ⟨200, .bytes [7, 7], some "image/gif", none, none, some "stale"⟩ :=
  GET_stale_fallback staleWorld ⟨0, [7, 7], "image/gif"⟩ rfl rfl (by decide) rfl

/-- C9: when the KV tier does not hit, no local CachedImage exists and the
live-fetch path fails, GET responds 502 with a plain text body. -/
theorem GET_no_cache_502 (w : World)
    (hkv : kvHit w = false) (hc : w.cached = none) (hfail : liveFails w = true) :
    (GETrun w).resp = ⟨502, .text "Could not fetch image", none, none, none, none⟩ := by
  obtain ⟨b, hb⟩ := liveFetchResult_fail w hfail
  unfold kvHit at hkv
  cases hk : w.kv with
  | hit buf m =>
    cases m with
    | some meta => rw [hk] at hkv; simp at hkv
    | none => simp [GETrun, hk, hc, hb, fallbackResult]
  | absent => simp [GETrun, hk, hc, hb, fallbackResult]
  | readError => simp [GETrun, hk, hc, hb, fallbackResult]
  | miss => simp [GETrun, hk, hc, hb, fallbackResult]

/-- C9, witness: a concrete cacheless request where every variant fails. -/
theorem GET_no_cache_502_witness :
    (GETrun noCacheWorld).resp =
      ⟨502, .text "Could not fetch image", none, none, none, none⟩ :=
  GET_no_cache_502 noCacheWorld rfl rfl rfl

theorem liveFetchResult_status (w : World) :
    (liveFetchResult w).resp.status = 200 ∨ (liveFetchResult w).resp.status = 502 := by
  unfold liveFetchResult fallbackResult
  cases hfr : fetchRedditImageUrl w.variants w.env w.num w.pick with
  | error e => cases hc : w.cached <;> simp [hc]
  | ok url =>
    cases hi : w.imgFetch with
    | netError m => cases hc : w.cached <;> simp [hc]
    | response s ct body =>
      by_cases hs : statusOk s = true
      · simp [hs]
      · have hs' : statusOk s = false := by simpa using hs
        cases hc : w.cached <;> simp [hs', hc]

/-- C10: GET is total over every cache and upstream outcome: each run
produces a response whose status is 200 or 502; every fault (KV read error
or metadata parse failure, listing variant faults, empty candidate set,
image fetch faults) is absorbed inside the handler. -/
theorem GET_status_total (w : World) :
    (GETrun w).resp.status = 200 ∨ (GETrun w).resp.status = 502 := by
  unfold GETrun
  cases hk : w.kv with
  | hit buf m =>
    cases m with
    | some meta => left; rfl
    | none =>
      cases hc : w.cached with
      | some c =>
        by_cases hfresh : w.now - c.fetchedAt < CACHE_TTL_MS
        · simp [hfresh]
        · simp only [if_neg hfresh]
          exact liveFetchResult_status w
      | none => exact liveFetchResult_status w
  | absent =>
    cases hc : w.cached with
    | some c =>
      by_cases hfresh : w.now - c.fetchedAt < CACHE_TTL_MS
      · simp [hfresh]
      · simp only [if_neg hfresh]
        exact liveFetchResult_status w
    | none => exact liveFetchResult_status w
  | readError =>
    cases hc : w.cached with
    | some c =>
      by_cases hfresh : w.now - c.fetchedAt < CACHE_TTL_MS
      · simp [hfresh]
      · simp only [if_neg hfresh]
        exact liveFetchResult_status w
    | none => exact liveFetchResult_status w
  | miss =>
    cases hc : w.cached with
    | some c =>
      by_cases hfresh : w.now - c.fetchedAt < CACHE_TTL_MS
      · simp [hfresh]
      · simp only [if_neg hfresh]
        exact liveFetchResult_status w
    | none => exact liveFetchResult_status w

end BlahajSpinner
